import Mathlib

/-
Shallow embedding of the category-resolution core of the cashewiss
repository (src/cashewiss/core/enums.py, src/cashewiss/core/models.py,
src/cashewiss/core/base.py, src/cashewiss/processors/zkb.py,
src/cashewiss/processors/migros.py).

Python dicts are modelled as association lists with insert-or-replace
update (dictSet) and first-match lookup (dictGet); Python exceptions are
modelled with Except; Python set iteration order for the merchant-token
step, which CPython leaves unspecified, is modelled by an explicit
token-order parameter that theorems constrain to be a permutation of the
token set.
-/

namespace Cashewiss

/-- Top-level categories, from Category in src/cashewiss/core/enums.py. -/
inductive Category
  | INCOME | BILLS | ESSENTIALS | DINING | SHOPPING | HOUSEHOLD
  | PERSONAL_CARE | LEISURE | HOBBIES | TRAVEL | FINANCIAL
deriving DecidableEq, Repr

/-- IncomeSubcategory in enums.py. -/
inductive IncomeSubcategory
  | SALARY | SIDE | TWINT
deriving DecidableEq, Repr

/-- BillsSubcategory in enums.py. -/
inductive BillsSubcategory
  | RENT | UTILITIES | INSURANCE | TELECOM | TAXES | FEES | SUBSCRIPTIONS | DONATIONS
deriving DecidableEq, Repr

/-- EssentialsSubcategory in enums.py. -/
inductive EssentialsSubcategory
  | TRANSIT | GROCERIES
deriving DecidableEq, Repr

/-- DiningSubcategory in enums.py. -/
inductive DiningSubcategory
  | WORK | DATE | DELIVERY | SOCIAL | TWINT
deriving DecidableEq, Repr

/-- ShoppingSubcategory in enums.py. -/
inductive ShoppingSubcategory
  | CLOTHING | ELECTRONICS | MEDIA | GIFTS
deriving DecidableEq, Repr

/-- HouseholdSubcategory in enums.py. -/
inductive HouseholdSubcategory
  | FURNITURE | APPLIANCES | DECOR | CLEANING
deriving DecidableEq, Repr

/-- PersonalCareSubcategory in enums.py. -/
inductive PersonalCareSubcategory
  | MEDICAL | PERSONAL
deriving DecidableEq, Repr

/-- LeisureSubcategory in enums.py. -/
inductive LeisureSubcategory
  | EVENTS | ACTIVITIES
deriving DecidableEq, Repr

/-- HobbiesSubcategory in enums.py. -/
inductive HobbiesSubcategory
  | BOULDERN | SALSA | TECH
deriving DecidableEq, Repr

/-- TravelSubcategory in enums.py. -/
inductive TravelSubcategory
  | TRANSPORT | ACCOMMODATION | FOOD_ACTIVITIES
deriving DecidableEq, Repr

/-- FinancialSubcategory in enums.py. -/
inductive FinancialSubcategory
  | INVESTMENTS | SAVINGS
deriving DecidableEq, Repr

/-- A subcategory value; the constructor tag records which Python enum
class the value belongs to (used for the isinstance check below). -/
inductive Subcategory
  | income (s : IncomeSubcategory)
  | bills (s : BillsSubcategory)
  | essentials (s : EssentialsSubcategory)
  | dining (s : DiningSubcategory)
  | shopping (s : ShoppingSubcategory)
  | household (s : HouseholdSubcategory)
  | personalCare (s : PersonalCareSubcategory)
  | leisure (s : LeisureSubcategory)
  | hobbies (s : HobbiesSubcategory)
  | travel (s : TravelSubcategory)
  | financial (s : FinancialSubcategory)
deriving DecidableEq, Repr

/-- Identity of the eleven Python subcategory enum classes. -/
inductive SubcategoryType
  | incomeT | billsT | essentialsT | diningT | shoppingT | householdT
  | personalCareT | leisureT | hobbiesT | travelT | financialT
deriving DecidableEq, Repr

/-- The enum class a subcategory value is an instance of. -/
def isinstanceOf : Subcategory → SubcategoryType
  | .income _ => .incomeT
  | .bills _ => .billsT
  | .essentials _ => .essentialsT
  | .dining _ => .diningT
  | .shopping _ => .shoppingT
  | .household _ => .householdT
  | .personalCare _ => .personalCareT
  | .leisure _ => .leisureT
  | .hobbies _ => .hobbiesT
  | .travel _ => .travelT
  | .financial _ => .financialT

/-- SUBCATEGORY_TYPES dict in src/cashewiss/core/models.py: every category
has a registered subcategory enum class; modelled with Option because the
code performs a dict .get that can in principle miss. -/
def SUBCATEGORY_TYPES : Category → Option SubcategoryType
  | .INCOME => some .incomeT
  | .BILLS => some .billsT
  | .ESSENTIALS => some .essentialsT
  | .DINING => some .diningT
  | .SHOPPING => some .shoppingT
  | .HOUSEHOLD => some .householdT
  | .PERSONAL_CARE => some .personalCareT
  | .LEISURE => some .leisureT
  | .HOBBIES => some .hobbiesT
  | .TRAVEL => some .travelT
  | .FINANCIAL => some .financialT

/-- CategoryMapping from src/cashewiss/core/models.py (fields only; the
pydantic validation is the separate constructor mk? below, since pydantic
runs it at construction time). -/
structure CategoryMapping where
  category : Category
  subcategory : Option Subcategory
deriving DecidableEq, Repr

/-- Python exceptions relevant to this core. validationError stands for
the pydantic ValidationError raised by CategoryMapping.validate_categories;
valueError for the plain ValueError in set_category_mapper;
attributeError for missing-attribute failures; missingFieldError exists
only to express the MissingFieldError the specification postulates (no
code of the repository raises it). -/
inductive Err
  | validationError (msg : String)
  | valueError (msg : String)
  | attributeError (name : String)
  | missingFieldError (name : String)
deriving DecidableEq, Repr

deriving instance DecidableEq for Except

/-- The subcategory branch of CategoryMapping.validate_categories in
models.py: look up the enum class registered for the category and require
the value to be an instance of it. -/
def validateSubcategory (category : Category) (value : Subcategory) : Except Err Subcategory :=
  match SUBCATEGORY_TYPES category with
  | none => .error (.validationError "does not support subcategories")
  | some t =>
    if isinstanceOf value = t then .ok value
    else .error (.validationError "Invalid subcategory type")

/-- Validating construction of a CategoryMapping, as pydantic performs it
when CategoryMapping(category=..., subcategory=...) is evaluated. -/
def CategoryMapping.mk? (category : Category) (subcategory : Option Subcategory) : Except Err CategoryMapping :=
  match subcategory with
  | none => .ok ⟨category, none⟩
  | some s =>
    match validateSubcategory category s with
    | .ok s => .ok ⟨category, some s⟩
    | .error e => .error e

/-- Python str.lower(), character-wise (the strings the claims involve
are ASCII, where Python and this definition agree). Defined on the
character list so that it reduces definitionally. -/
def pyLowerStr (s : String) : String :=
  ⟨s.data.map Char.toLower⟩

/-- A Python dict str -> CategoryMapping, as an association list in
insertion order with unique keys maintained by dictSet. -/
abbrev MappingTable := List (String × CategoryMapping)

/-- Python dict assignment d[k] = v: replace in place if the key is
present, append otherwise. -/
def dictSet (d : MappingTable) (k : String) (v : CategoryMapping) : MappingTable :=
  if d.any (fun p => p.1 == k) then
    d.map (fun p => if p.1 == k then (k, v) else p)
  else d ++ [(k, v)]

/-- Python dict .get(k): first entry with the key. -/
def dictGet (d : MappingTable) (k : String) : Option CategoryMapping :=
  (d.find? (fun p => p.1 == k)).map (fun p => p.2)

/-- ProcessorConfig from models.py: the three mapping tables. -/
structure ProcessorConfig where
  name : String
  merchant_mappings : MappingTable
  merchant_category_mappings : MappingTable
  registered_category_mappings : MappingTable
deriving DecidableEq, Repr

/-- The attributes of BaseTransactionProcessor that the resolver and the
seeding method read. Columns are Option String because ZKBProcessor sets
merchant_category_column and registered_category_column to None. -/
structure Processor where
  name : String
  merchant_column : Option String
  merchant_category_column : Option String
  description_column : Option String
  registered_category_column : Option String
  config : ProcessorConfig
deriving DecidableEq, Repr

/-- A value passed to set_category_mapper: either an already-constructed
CategoryMapping (the isinstance branch, stored directly) or a raw dict
with category and optional subcategory (validated at seed time). -/
inductive SeedValue
  | mapping (m : CategoryMapping)
  | raw (category : Category) (subcategory : Option Subcategory)
deriving DecidableEq, Repr

/-- The loop body of set_category_mapper in base.py: store every entry
under its lowercased key; raw dict values go through the validating
constructor. The Python loop mutates the table in place, so on a
validation error earlier entries stay written; no theorem below observes
a partially-seeded table, so the error case simply returns the error. -/
def seedTable (tbl : MappingTable) (entries : List (String × SeedValue)) : Except Err MappingTable :=
  match entries with
  | [] => .ok tbl
  | (key, value) :: rest =>
    match value with
    | .mapping m => seedTable (dictSet tbl (pyLowerStr key) m) rest
    | .raw c s =>
      match CategoryMapping.mk? c s with
      | .ok m => seedTable (dictSet tbl (pyLowerStr key) m) rest
      | .error e => .error e

/-- set_category_mapper from base.py: dispatch on the mapper type against
the three configured column names (a None column never equals a string,
as in Python), then write the entries into the selected table. -/
def set_category_mapper (p : Processor) (mapper : List (String × SeedValue)) (mapper_type : String) : Except Err Processor :=
  if p.merchant_column = some mapper_type then
    match seedTable p.config.merchant_mappings mapper with
    | .ok t => .ok { p with config := { p.config with merchant_mappings := t } }
    | .error e => .error e
  else if p.merchant_category_column = some mapper_type then
    match seedTable p.config.merchant_category_mappings mapper with
    | .ok t => .ok { p with config := { p.config with merchant_category_mappings := t } }
    | .error e => .error e
  else if p.registered_category_column = some mapper_type then
    match seedTable p.config.registered_category_mappings mapper with
    | .ok t => .ok { p with config := { p.config with registered_category_mappings := t } }
    | .error e => .error e
  else .error (.valueError ("Unknown mapper type: " ++ mapper_type))

/-- A cell of a transaction row: the processors pass strings (merchant
and category texts) and floats (amounts, modelled as rationals). -/
inductive RowVal
  | str (s : String)
  | num (q : Rat)
deriving DecidableEq, Repr

/-- A transaction row, the dict argument of _map_category. -/
abbrev Row := List (String × RowVal)

/-- Python row.get(k). -/
def rowGet (row : Row) (k : String) : Option RowVal :=
  (row.find? (fun p => p.1 == k)).map (fun p => p.2)

/-- Python truthiness of an optional cell: absent, the empty string and
zero are falsy. -/
def truthy : Option RowVal → Bool
  | none => false
  | some (.str s) => decide (s ≠ "")
  | some (.num q) => decide (q ≠ 0)

/-- The guard pattern `if self.X_column and row.get(self.X_column)` of
_map_category: the configured column name must be truthy (not None, not
empty) and the row value under it truthy; returns that value. -/
def colVal (col : Option String) (row : Row) : Option RowVal :=
  match col with
  | none => none
  | some c =>
    if c = "" then none
    else
      match rowGet row c with
      | some v => if truthy (some v) then some v else none
      | none => none

/-- Python value.lower(): defined on strings, AttributeError on floats. -/
def pyLower (v : RowVal) : Except Err String :=
  match v with
  | .str s => .ok (pyLowerStr s)
  | .num _ => .error (.attributeError "lower")

/-- Worker for pySplit: walk the characters, accumulating the current
token (reversed); whitespace flushes it. -/
def pySplitGo : List Char → List Char → List String
  | [], cur => if cur.isEmpty then [] else [⟨cur.reverse⟩]
  | c :: cs, cur =>
    if c.isWhitespace then
      if cur.isEmpty then pySplitGo cs [] else ⟨cur.reverse⟩ :: pySplitGo cs []
    else pySplitGo cs (c :: cur)

/-- Python str.split() with no argument: split on whitespace runs,
discarding empty pieces. -/
def pySplit (s : String) : List String :=
  pySplitGo s.data []

/-- The token set `set(merchant_lower.split())` of _map_category, as a
duplicate-free list; its iteration order in CPython is unspecified, so
theorems quantify over permutations of this list. -/
def merchantWords (ml : String) : List String :=
  (pySplit ml).dedup

/-- The token loop of _map_category: return the mapping of the first
probed token present in the merchant table. -/
def firstTokenHit (tbl : MappingTable) : List String → Option CategoryMapping
  | [] => none
  | w :: ws =>
    match dictGet tbl w with
    | some m => some m
    | none => firstTokenHit tbl ws

/-- Strategies 1 and 2 of _map_category (merchant exact match, then
merchant token match). wordOrder is the iteration order of the token
set; the intended instantiations are permutations of
merchantWords of the lowercased merchant name. -/
def merchantHit (p : Processor) (row : Row) (wordOrder : List String) : Except Err (Option CategoryMapping) :=
  match colVal p.merchant_column row with
  | none => .ok none
  | some v =>
    match pyLower v with
    | .error e => .error e
    | .ok ml =>
      match dictGet p.config.merchant_mappings ml with
      | some m => .ok (some m)
      | none => .ok (firstTokenHit p.config.merchant_mappings wordOrder)

/-- Strategy 3 of _map_category: merchant-category exact match. -/
def merchantCategoryHit (p : Processor) (row : Row) : Except Err (Option CategoryMapping) :=
  match colVal p.merchant_category_column row with
  | none => .ok none
  | some v =>
    match pyLower v with
    | .error e => .error e
    | .ok cl => .ok (dictGet p.config.merchant_category_mappings cl)

/-- Strategy 4 of _map_category: registered-category exact match. -/
def registeredCategoryHit (p : Processor) (row : Row) : Except Err (Option CategoryMapping) :=
  match colVal p.registered_category_column row with
  | none => .ok none
  | some v =>
    match pyLower v with
    | .error e => .error e
    | .ok rl => .ok (dictGet p.config.registered_category_mappings rl)

/-- _map_category from base.py, with the token iteration order explicit:
first strategy that yields a mapping wins; if none does, construct and
return CategoryMapping(category=Category.SHOPPING, subcategory=None). -/
def mapCategoryOrd (p : Processor) (row : Row) (wordOrder : List String) : Except Err CategoryMapping :=
  match merchantHit p row wordOrder with
  | .error e => .error e
  | .ok (some m) => .ok m
  | .ok none =>
    match merchantCategoryHit p row with
    | .error e => .error e
    | .ok (some m) => .ok m
    | .ok none =>
      match registeredCategoryHit p row with
      | .error e => .error e
      | .ok (some m) => .ok m
      | .ok none => CategoryMapping.mk? Category.SHOPPING none

/-- The canonical token order: first-occurrence order of the tokens of
the row's lowercased merchant value (one concrete possibility for the
unspecified set order). -/
def rowMerchantWords (p : Processor) (row : Row) : List String :=
  match colVal p.merchant_column row with
  | some (.str s) => merchantWords (pyLowerStr s)
  | _ => []

/-- _map_category evaluated at the canonical token order. -/
def mapCategory (p : Processor) (row : Row) : Except Err CategoryMapping :=
  mapCategoryOrd p row (rowMerchantWords p row)

/-- SUGGESTED_MERCHANT_MAPPING from base.py (the uncommented entries):
class-level dict of already-constructed CategoryMapping values, seeded
into every processor instance at construction time. -/
def SUGGESTED_MERCHANT_MAPPING : List (String × CategoryMapping) := [
  ("boulderlounge", ⟨.HOBBIES, some (.hobbies .BOULDERN)⟩),
  ("publibike", ⟨.ESSENTIALS, some (.essentials .TRANSIT)⟩),
  ("salsarica", ⟨.HOBBIES, some (.hobbies .SALSA)⟩),
  ("theater", ⟨.LEISURE, some (.leisure .EVENTS)⟩),
  ("kir", ⟨.DINING, some (.dining .SOCIAL)⟩),
  ("minimum", ⟨.HOBBIES, some (.hobbies .BOULDERN)⟩),
  ("minimum-", ⟨.HOBBIES, some (.hobbies .BOULDERN)⟩),
  ("gastro technopark zh", ⟨.DINING, some (.dining .WORK)⟩),
  ("sv", ⟨.DINING, some (.dining .WORK)⟩),
  ("plaza", ⟨.DINING, some (.dining .SOCIAL)⟩),
  ("too good to go", ⟨.DINING, some (.dining .DATE)⟩),
  ("toogoodt", ⟨.DINING, some (.dining .DATE)⟩),
  ("google", ⟨.SHOPPING, some (.shopping .MEDIA)⟩),
  ("blue tomato", ⟨.SHOPPING, some (.shopping .CLOTHING)⟩),
  ("burger king", ⟨.DINING, some (.dining .DELIVERY)⟩),
  ("mcdonald\x27s", ⟨.DINING, some (.dining .DELIVERY)⟩),
  ("coiffeur", ⟨.PERSONAL_CARE, some (.personalCare .PERSONAL)⟩),
  ("ikea", ⟨.HOUSEHOLD, some (.household .DECOR)⟩),
  ("pub", ⟨.DINING, some (.dining .SOCIAL)⟩),
  ("mobility", ⟨.ESSENTIALS, some (.essentials .TRANSIT)⟩),
  ("sbb", ⟨.ESSENTIALS, some (.essentials .TRANSIT)⟩),
  ("zvv", ⟨.ESSENTIALS, some (.essentials .TRANSIT)⟩),
  ("swiss post", ⟨.DINING, some (.dining .WORK)⟩),
  ("uber eats", ⟨.DINING, some (.dining .DELIVERY)⟩),
  ("zürich openair", ⟨.LEISURE, some (.leisure .EVENTS)⟩),
  ("hallenstadion zürich", ⟨.LEISURE, some (.leisure .EVENTS)⟩),
  ("gomore.ch", ⟨.ESSENTIALS, some (.essentials .TRANSIT)⟩),
  ("helvetia versicherungen", ⟨.BILLS, some (.bills .INSURANCE)⟩),
  ("jumbo", ⟨.HOUSEHOLD, some (.household .DECOR)⟩),
  ("jysk", ⟨.HOUSEHOLD, some (.household .FURNITURE)⟩),
  ("bett0.ch", ⟨.HOUSEHOLD, some (.household .FURNITURE)⟩),
  ("kkl", ⟨.LEISURE, some (.leisure .EVENTS)⟩),
  ("swiss international air lines", ⟨.TRAVEL, some (.travel .TRANSPORT)⟩),
  ("booking.com", ⟨.TRAVEL, some (.travel .ACCOMMODATION)⟩),
  ("ticketino", ⟨.LEISURE, some (.leisure .EVENTS)⟩),
  ("netflix", ⟨.BILLS, some (.bills .SUBSCRIPTIONS)⟩),
  ("spotify", ⟨.BILLS, some (.bills .SUBSCRIPTIONS)⟩),
  ("sky", ⟨.BILLS, some (.bills .SUBSCRIPTIONS)⟩),
  ("amavita", ⟨.PERSONAL_CARE, some (.personalCare .MEDICAL)⟩),
  ("vitality", ⟨.PERSONAL_CARE, some (.personalCare .MEDICAL)⟩),
  ("see tickets", ⟨.LEISURE, some (.leisure .EVENTS)⟩),
  ("gelateria", ⟨.DINING, none⟩),
  ("apotheke", ⟨.PERSONAL_CARE, some (.personalCare .MEDICAL)⟩),
  ("microsoft", ⟨.SHOPPING, some (.shopping .MEDIA)⟩)]

/-- BaseTransactionProcessor.__init__: default column names, an empty
ProcessorConfig, then seeding of the shared merchant table via
set_category_mapper(SUGGESTED_MERCHANT_MAPPING, self.merchant_column). -/
def baseInit (name : String) : Except Err Processor :=
  let p : Processor :=
    { name := name
      merchant_column := some "Merchant"
      merchant_category_column := some "Merchant Category"
      description_column := some "Description"
      registered_category_column := some "Registered Category"
      config :=
        { name := name
          merchant_mappings := []
          merchant_category_mappings := []
          registered_category_mappings := [] } }
  set_category_mapper p (SUGGESTED_MERCHANT_MAPPING.map (fun e => (e.1, SeedValue.mapping e.2))) "Merchant"

/-- Method names defined in the class body of BaseTransactionProcessor
(src/cashewiss/core/base.py). -/
def baseTransactionProcessorMethods : List String :=
  ["__init__", "set_category_mapper", "_map_category", "load_data", "transform_data", "process"]

/-- Method names defined in the class body of ZKBProcessor
(src/cashewiss/processors/zkb.py). -/
def zkbProcessorMethods : List String :=
  ["__init__", "load_data", "transform_data"]

/-- Method names defined in the class body of MigrosProcessor
(src/cashewiss/processors/migros.py). -/
def migrosProcessorMethods : List String :=
  ["__init__", "load_data", "transform_data"]

/-- Python attribute resolution over a method-resolution order: the name
must appear in some class of the chain. -/
def hasMethod (mro : List (List String)) (name : String) : Bool :=
  mro.any (fun ms => ms.contains name)

/-- ZKBProcessor.__init__: super().__init__, column overrides, then the
call self.set_default_merchant_mapping(); that name is defined neither on
ZKBProcessor nor on BaseTransactionProcessor, so attribute resolution
fails and the constructor raises AttributeError (the success branch is
unreachable and returns the state the instance would have had). -/
def zkbInit : Except Err Processor :=
  match baseInit "ZKB" with
  | .error e => .error e
  | .ok p0 =>
    let p1 := { p0 with
      merchant_column := some "Booking text"
      merchant_category_column := none
      description_column := some "Booking text"
      registered_category_column := none }
    if hasMethod [zkbProcessorMethods, baseTransactionProcessorMethods] "set_default_merchant_mapping" then
      .ok p1
    else
      .error (.attributeError "set_default_merchant_mapping")

/-- MigrosProcessor.__init__: super().__init__, merchant column override
(the amount_column attribute it also sets is never read by the resolver),
then the same failing self.set_default_merchant_mapping() call. -/
def migrosInit : Except Err Processor :=
  match baseInit "Migros Bank" with
  | .error e => .error e
  | .ok p0 =>
    let p1 := { p0 with merchant_column := some "Buchungstext" }
    if hasMethod [migrosProcessorMethods, baseTransactionProcessorMethods] "set_default_merchant_mapping" then
      .ok p1
    else
      .error (.attributeError "set_default_merchant_mapping")

/-- The taxonomy invariant of a CategoryMapping: a present subcategory is
an instance of the enum class registered for the category. -/
def validMapping (m : CategoryMapping) : Bool :=
  match m.subcategory with
  | none => true
  | some s =>
    match SUBCATEGORY_TYPES m.category with
    | none => false
    | some t => decide (isinstanceOf s = t)

/-- Every stored mapping of a table satisfies the taxonomy invariant. -/
def validTable (tbl : MappingTable) : Bool :=
  tbl.all (fun e => validMapping e.2)

/-- All three tables of a configuration are valid. -/
def validConfig (c : ProcessorConfig) : Bool :=
  validTable c.merchant_mappings && validTable c.merchant_category_mappings &&
    validTable c.registered_category_mappings

/-- The keys of a table, in order. -/
def tableKeys (tbl : MappingTable) : List String :=
  tbl.map Prod.fst

/-- Number of entries stored under a key. -/
def countKey (tbl : MappingTable) (k : String) : Nat :=
  (tableKeys tbl).count k

/-- The dict invariant: keys are unique (Python dicts guarantee it, and
dictSet preserves it). -/
def NodupKeys (tbl : MappingTable) : Prop :=
  (tableKeys tbl).Nodup

/-- Every row value is a string (the shape the processors feed for the
text columns). -/
def rowWellTyped (row : Row) : Bool :=
  row.all (fun kv => match kv.2 with | .str _ => true | .num _ => false)

/-- A processor with the default column names and empty tables, used as
a base point for concrete resolution scenarios. -/
def plainProcessor : Processor :=
  { name := "P"
    merchant_column := some "Merchant"
    merchant_category_column := some "Merchant Category"
    description_column := some "Description"
    registered_category_column := some "Registered Category"
    config :=
      { name := "P"
        merchant_mappings := []
        merchant_category_mappings := []
        registered_category_mappings := [] } }

/-- DINING with the Social subcategory, the mapping of the "kir" seed. -/
def socialDining : CategoryMapping := ⟨.DINING, some (.dining .SOCIAL)⟩

/-- plainProcessor after seeding the merchant table with the single
entry "kir" -> DINING/Social. -/
def kirProcessor : Processor :=
  { plainProcessor with
    config := { plainProcessor.config with merchant_mappings := [("kir", socialDining)] } }

/-- ESSENTIALS/Groceries, used as the X of the case-insensitivity seed. -/
def groceriesMapping : CategoryMapping := ⟨.ESSENTIALS, some (.essentials .GROCERIES)⟩

/-- HOUSEHOLD/Decor, the first ikea seed. -/
def decorMapping : CategoryMapping := ⟨.HOUSEHOLD, some (.household .DECOR)⟩

/-- HOUSEHOLD/Furniture, the second ikea seed. -/
def furnitureMapping : CategoryMapping := ⟨.HOUSEHOLD, some (.household .FURNITURE)⟩

/-- plainProcessor with two differently-mapped merchant tokens seeded,
the scenario of the token-order counterexample. -/
def twoTokenProcessor : Processor :=
  { plainProcessor with
    config := { plainProcessor.config with
      merchant_mappings := [("coop", groceriesMapping), ("ikea", decorMapping)] } }

/-- A row whose merchant name contains the two seeded tokens. -/
def twoTokenRow : Row := [("Merchant", .str "Coop Ikea")]

/-- The any-test of dictSet is exactly membership of the key. -/
theorem any_key_iff_mem (t : MappingTable) (k : String) :
    (t.any fun p => p.1 == k) = true ↔ k ∈ tableKeys t := by
  induction t with
  | nil => simp [tableKeys]
  | cons hd tl ih =>
    rw [tableKeys] at ih
    simp only [List.any_cons, Bool.or_eq_true, beq_iff_eq, tableKeys, List.map_cons,
      List.mem_cons]
    constructor
    · rintro (h | h)
      · exact Or.inl h.symm
      · exact Or.inr (ih.mp h)
    · rintro (h | h)
      · exact Or.inl h.symm
      · exact Or.inr (ih.mpr h)

/-- Updating a present key rewrites the matching entries in place and
leaves the key sequence unchanged; a fresh key is appended. -/
theorem tableKeys_dictSet (t : MappingTable) (k : String) (v : CategoryMapping) :
    tableKeys (dictSet t k v) =
      if (t.any fun p => p.1 == k) = true then tableKeys t else tableKeys t ++ [k] := by
  unfold dictSet tableKeys
  by_cases h : (t.any fun p => p.1 == k) = true
  · rw [if_pos h, if_pos h, List.map_map]
    refine List.map_congr_left ?_
    intro p _
    by_cases hp : p.1 = k
    · simp [hp]
    · simp [hp]
  · rw [if_neg h, if_neg h]
    simp

/-- dictSet preserves the unique-keys invariant. -/
theorem nodupKeys_dictSet (t : MappingTable) (k : String) (v : CategoryMapping)
    (h : NodupKeys t) : NodupKeys (dictSet t k v) := by
  unfold NodupKeys
  rw [tableKeys_dictSet]
  by_cases ha : (t.any fun p => p.1 == k) = true
  · rw [if_pos ha]
    exact h
  · rw [if_neg ha]
    have hk : k ∉ tableKeys t := fun hm => ha ((any_key_iff_mem t k).mpr hm)
    rw [List.nodup_append]
    refine ⟨h, List.nodup_singleton k, ?_⟩
    intro a ha1 ha2
    rw [List.mem_singleton] at ha2
    exact hk (ha2 ▸ ha1)

/-- dictSet never removes a key. -/
theorem mem_tableKeys_dictSet (t : MappingTable) (k k' : String) (v : CategoryMapping)
    (h : k' ∈ tableKeys t) : k' ∈ tableKeys (dictSet t k v) := by
  rw [tableKeys_dictSet]
  by_cases ha : (t.any fun p => p.1 == k) = true
  · rw [if_pos ha]
    exact h
  · rw [if_neg ha]
    exact List.mem_append_left _ h

/-- Looking up the key just written yields the value written (update of a
present key). -/
theorem dictGet_map_update (t : MappingTable) (k : String) (v : CategoryMapping)
    (h : (t.any fun p => p.1 == k) = true) :
    dictGet (t.map (fun p => if p.1 == k then (k, v) else p)) k = some v := by
  induction t with
  | nil => simp at h
  | cons hd tl ih =>
    rw [List.any_cons] at h
    by_cases hh : (hd.1 == k) = true
    · unfold dictGet
      rw [List.map_cons, List.find?]
      rw [if_pos hh]
      simp
    · have hhf : (hd.1 == k) = false := by
        cases hb : hd.1 == k
        · rfl
        · exact absurd hb hh
      have h' : (tl.any fun p => p.1 == k) = true := by
        cases hb : tl.any fun p => p.1 == k
        · rw [hhf, hb] at h
          simp at h
        · rfl
      have ihr := ih h'
      unfold dictGet at ihr ⊢
      rw [List.map_cons, List.find?]
      rw [if_neg hh]
      rw [hhf]
      exact ihr

/-- Looking up the key just appended yields the value appended (insertion
of a fresh key). -/
theorem dictGet_append_new (t : MappingTable) (k : String) (v : CategoryMapping)
    (h : (t.any fun p => p.1 == k) = false) :
    dictGet (t ++ [(k, v)]) k = some v := by
  induction t with
  | nil =>
    unfold dictGet
    rw [List.nil_append, List.find?]
    simp
  | cons hd tl ih =>
    rw [List.any_cons] at h
    have hh : (hd.1 == k) = false := by
      cases hb : hd.1 == k
      · rfl
      · rw [hb] at h; simp at h
    have h' : (tl.any fun p => p.1 == k) = false := by
      cases hb : tl.any fun p => p.1 == k
      · rfl
      · rw [hb] at h; simp at h
    have ihr := ih h'
    unfold dictGet at ihr ⊢
    rw [List.cons_append, List.find?]
    rw [hh]
    exact ihr

/-- Python dict semantics: after d[k] = v, d.get(k) is v. -/
theorem dictGet_dictSet_self (t : MappingTable) (k : String) (v : CategoryMapping) :
    dictGet (dictSet t k v) k = some v := by
  unfold dictSet
  by_cases h : (t.any fun p => p.1 == k) = true
  · rw [if_pos h]
    exact dictGet_map_update t k v h
  · rw [if_neg h]
    refine dictGet_append_new t k v ?_
    cases hb : t.any fun p => p.1 == k
    · rfl
    · exact absurd hb h

/-- After writing a key into a table with unique keys, exactly one entry
carries that key. -/
theorem countKey_dictSet_self (t : MappingTable) (k : String) (v : CategoryMapping)
    (h : NodupKeys t) : countKey (dictSet t k v) k = 1 := by
  unfold countKey
  rw [tableKeys_dictSet]
  by_cases ha : (t.any fun p => p.1 == k) = true
  · rw [if_pos ha]
    exact List.count_eq_one_of_mem h ((any_key_iff_mem t k).mp ha)
  · rw [if_neg ha]
    rw [List.count_append]
    have h0 : (tableKeys t).count k = 0 :=
      List.count_eq_zero.mpr fun hm => ha ((any_key_iff_mem t k).mpr hm)
    simp [h0]

/-- Seeding a table never removes a key. -/
theorem mem_tableKeys_seedTable (es : List (String × SeedValue)) (t t' : MappingTable)
    (hs : seedTable t es = .ok t') (k : String) (hk : k ∈ tableKeys t) :
    k ∈ tableKeys t' := by
  induction es generalizing t with
  | nil =>
    unfold seedTable at hs
    cases hs
    exact hk
  | cons e es ih =>
    obtain ⟨key, value⟩ := e
    cases value with
    | mapping m =>
      unfold seedTable at hs
      dsimp only at hs
      exact ih _ hs (mem_tableKeys_dictSet _ _ _ _ hk)
    | raw c s =>
      unfold seedTable at hs
      dsimp only at hs
      cases hmk : CategoryMapping.mk? c s with
      | ok m =>
        rw [hmk] at hs
        exact ih _ hs (mem_tableKeys_dictSet _ _ _ _ hk)
      | error e' =>
        rw [hmk] at hs
        exact Except.noConfusion hs

/-- The token loop returns the mapping of the first token that the table
contains. -/
theorem firstTokenHit_eq (tbl : MappingTable) (ws : List String) :
    firstTokenHit tbl ws =
      ((ws.filter (fun w => (dictGet tbl w).isSome)).head?).bind (dictGet tbl) := by
  induction ws with
  | nil => rfl
  | cons w ws ih =>
    cases hg : dictGet tbl w with
    | some m =>
      rw [firstTokenHit, hg, List.filter_cons]
      simp [hg]
    | none =>
      rw [firstTokenHit, hg, List.filter_cons]
      simp only [hg, Option.isSome_none, Bool.false_eq_true, if_false]
      exact ih

/-- Two permutations of a common list of length at most one are equal. -/
theorem perm_eq_of_len_le_one {l₁ l₂ : List String} (h : l₁.Perm l₂)
    (hl : l₂.length ≤ 1) : l₁ = l₂ := by
  match l₂, hl with
  | [], _ => exact List.perm_nil.mp h
  | [a], _ => exact List.perm_singleton.mp h
  | a :: b :: t, hl => simp at hl

/-- merchantHit depends on the token order only through firstTokenHit. -/
theorem merchantHit_congr (p : Processor) (row : Row) (o₁ o₂ : List String)
    (h : firstTokenHit p.config.merchant_mappings o₁ =
      firstTokenHit p.config.merchant_mappings o₂) :
    merchantHit p row o₁ = merchantHit p row o₂ := by
  unfold merchantHit
  cases colVal p.merchant_column row with
  | none => rfl
  | some v =>
    dsimp only
    cases pyLower v with
    | error e => rfl
    | ok ml =>
      dsimp only
      cases dictGet p.config.merchant_mappings ml with
      | some m => rfl
      | none => rw [h]

/-- mapCategoryOrd depends on the token order only through merchantHit. -/
theorem mapCategoryOrd_congr (p : Processor) (row : Row) (o₁ o₂ : List String)
    (h : merchantHit p row o₁ = merchantHit p row o₂) :
    mapCategoryOrd p row o₁ = mapCategoryOrd p row o₂ := by
  unfold mapCategoryOrd
  rw [h]

/-- An exact merchant-table hit makes merchantHit return it, whatever the
token order. -/
theorem merchantHit_exact (p : Processor) (row : Row) (ord : List String)
    (s : String) (m : CategoryMapping)
    (hrow : colVal p.merchant_column row = some (.str s))
    (hget : dictGet p.config.merchant_mappings (pyLowerStr s) = some m) :
    merchantHit p row ord = .ok (some m) := by
  unfold merchantHit
  rw [hrow]
  dsimp only [pyLower]
  rw [hget]

/-- A value stored in a table all of whose entries satisfy the taxonomy
invariant satisfies it as well. -/
theorem validTable_dictGet (tbl : MappingTable) (k : String) (m : CategoryMapping)
    (hv : validTable tbl = true) (hg : dictGet tbl k = some m) :
    validMapping m = true := by
  have hall : ∀ x ∈ tbl, validMapping x.2 = true := by
    intro x hx
    have := List.all_eq_true.mp hv x hx
    simpa using this
  unfold dictGet at hg
  cases hf : tbl.find? (fun p => p.1 == k) with
  | none => rw [hf] at hg; exact Option.noConfusion hg
  | some pr =>
    rw [hf] at hg
    have hmem := List.mem_of_find?_eq_some hf
    have hpr : pr.2 = m := by simpa using hg
    rw [← hpr]
    exact hall pr hmem

/-- A token hit is a stored table value. -/
theorem firstTokenHit_some (tbl : MappingTable) (ws : List String) (m : CategoryMapping)
    (h : firstTokenHit tbl ws = some m) : ∃ w, dictGet tbl w = some m := by
  induction ws with
  | nil => exact Option.noConfusion h
  | cons w ws ih =>
    unfold firstTokenHit at h
    cases hg : dictGet tbl w with
    | some m' =>
      rw [hg] at h
      have hm : m' = m := by simpa using h
      exact ⟨w, by rw [hg, hm]⟩
    | none =>
      rw [hg] at h
      exact ih h

/-- A mapping produced by the merchant strategies is a stored value of
the merchant table. -/
theorem merchantHit_some (p : Processor) (row : Row) (ord : List String)
    (m : CategoryMapping) (h : merchantHit p row ord = .ok (some m)) :
    ∃ k, dictGet p.config.merchant_mappings k = some m := by
  unfold merchantHit at h
  cases hcv : colVal p.merchant_column row with
  | none =>
    rw [hcv] at h
    dsimp only at h
    simp at h
  | some v =>
    rw [hcv] at h
    dsimp only at h
    cases hpl : pyLower v with
    | error e =>
      rw [hpl] at h
      dsimp only at h
      simp at h
    | ok ml =>
      rw [hpl] at h
      dsimp only at h
      cases hg : dictGet p.config.merchant_mappings ml with
      | some m' =>
        rw [hg] at h
        have hm : m' = m := by simpa using h
        exact ⟨ml, by rw [hg, hm]⟩
      | none =>
        rw [hg] at h
        have : firstTokenHit p.config.merchant_mappings ord = some m := by simpa using h
        exact firstTokenHit_some _ _ _ this

/-- A mapping produced by strategy 3 is a stored value of the
merchant-category table. -/
theorem merchantCategoryHit_some (p : Processor) (row : Row)
    (m : CategoryMapping) (h : merchantCategoryHit p row = .ok (some m)) :
    ∃ k, dictGet p.config.merchant_category_mappings k = some m := by
  unfold merchantCategoryHit at h
  cases hcv : colVal p.merchant_category_column row with
  | none =>
    rw [hcv] at h
    dsimp only at h
    simp at h
  | some v =>
    rw [hcv] at h
    dsimp only at h
    cases hpl : pyLower v with
    | error e =>
      rw [hpl] at h
      dsimp only at h
      simp at h
    | ok cl =>
      rw [hpl] at h
      dsimp only at h
      exact ⟨cl, by simpa using h⟩

/-- A mapping produced by strategy 4 is a stored value of the
registered-category table. -/
theorem registeredCategoryHit_some (p : Processor) (row : Row)
    (m : CategoryMapping) (h : registeredCategoryHit p row = .ok (some m)) :
    ∃ k, dictGet p.config.registered_category_mappings k = some m := by
  unfold registeredCategoryHit at h
  cases hcv : colVal p.registered_category_column row with
  | none =>
    rw [hcv] at h
    dsimp only at h
    simp at h
  | some v =>
    rw [hcv] at h
    dsimp only at h
    cases hpl : pyLower v with
    | error e =>
      rw [hpl] at h
      dsimp only at h
      simp at h
    | ok rl =>
      rw [hpl] at h
      dsimp only at h
      exact ⟨rl, by simpa using h⟩

/-- A value selected by the column guard is a value of the row. -/
theorem colVal_mem (col : Option String) (row : Row) (v : RowVal)
    (h : colVal col row = some v) : ∃ kk, (kk, v) ∈ row := by
  unfold colVal at h
  cases col with
  | none => exact Option.noConfusion h
  | some c =>
    dsimp only at h
    by_cases hc : c = ""
    · rw [if_pos hc] at h
      exact Option.noConfusion h
    · rw [if_neg hc] at h
      cases hg : rowGet row c with
      | none => rw [hg] at h; exact Option.noConfusion h
      | some w =>
        rw [hg] at h
        dsimp only at h
        by_cases ht : truthy (some w) = true
        · rw [if_pos ht] at h
          have hvw : w = v := by simpa using h
          unfold rowGet at hg
          cases hf : row.find? (fun p => p.1 == c) with
          | none => rw [hf] at hg; exact Option.noConfusion hg
          | some pr =>
            rw [hf] at hg
            have hpr : pr.2 = w := by simpa using hg
            have hmem := List.mem_of_find?_eq_some hf
            refine ⟨pr.1, ?_⟩
            have hpe : (pr.1, pr.2) = pr := rfl
            rw [hpr, hvw] at hpe
            rw [hpe]
            exact hmem
        · rw [if_neg ht] at h
          exact Option.noConfusion h

/-- In a row whose values are all strings, the column guard only ever
selects strings. -/
theorem colVal_str (col : Option String) (row : Row) (v : RowVal)
    (hwt : rowWellTyped row = true) (h : colVal col row = some v) :
    ∃ s, v = RowVal.str s := by
  rcases colVal_mem col row v h with ⟨kk, hmem⟩
  have hv := List.all_eq_true.mp hwt (kk, v) hmem
  cases v with
  | str s => exact ⟨s, rfl⟩
  | num q => simp [rowWellTyped] at hv

/-- The merchant strategies cannot raise on a string-valued row. -/
theorem merchantHit_ok (p : Processor) (row : Row) (ord : List String)
    (hwt : rowWellTyped row = true) : ∃ o, merchantHit p row ord = .ok o := by
  unfold merchantHit
  cases hcv : colVal p.merchant_column row with
  | none => exact ⟨none, rfl⟩
  | some v =>
    rcases colVal_str _ _ _ hwt hcv with ⟨s, rfl⟩
    dsimp only [pyLower]
    cases dictGet p.config.merchant_mappings (pyLowerStr s) with
    | some m => exact ⟨some m, rfl⟩
    | none => exact ⟨_, rfl⟩

/-- Strategy 3 cannot raise on a string-valued row. -/
theorem merchantCategoryHit_ok (p : Processor) (row : Row)
    (hwt : rowWellTyped row = true) : ∃ o, merchantCategoryHit p row = .ok o := by
  unfold merchantCategoryHit
  cases hcv : colVal p.merchant_category_column row with
  | none => exact ⟨none, rfl⟩
  | some v =>
    rcases colVal_str _ _ _ hwt hcv with ⟨s, rfl⟩
    exact ⟨_, rfl⟩

/-- Strategy 4 cannot raise on a string-valued row. -/
theorem registeredCategoryHit_ok (p : Processor) (row : Row)
    (hwt : rowWellTyped row = true) : ∃ o, registeredCategoryHit p row = .ok o := by
  unfold registeredCategoryHit
  cases hcv : colVal p.registered_category_column row with
  | none => exact ⟨none, rfl⟩
  | some v =>
    rcases colVal_str _ _ _ hwt hcv with ⟨s, rfl⟩
    exact ⟨_, rfl⟩

/-- C1 counterexample: with no table matches, a row with strictly
positive amount and a merchant containing "twint" resolves to
Shopping with no subcategory, not to Income with the Twint variant; a
negative-amount twint row likewise resolves to Shopping/None, not
Dining/Twint. The default path of _map_category in base.py reads
neither the amount nor the merchant text. -/
theorem C1_counterexample :
    mapCategory plainProcessor [("Merchant", .str "TWINT Jane Doe"), ("Amount", .num 50)] =
      .ok ⟨Category.SHOPPING, none⟩ ∧
    (⟨Category.SHOPPING, none⟩ : CategoryMapping) ≠
      ⟨Category.INCOME, some (.income .TWINT)⟩ ∧
    mapCategory plainProcessor [("Merchant", .str "TWINT Jane Doe"), ("Amount", .num (-123/10))] =
      .ok ⟨Category.SHOPPING, none⟩ ∧
    (⟨Category.SHOPPING, none⟩ : CategoryMapping) ≠
      ⟨Category.DINING, some (.dining .TWINT)⟩ :=
  ⟨rfl, by decide, rfl, by decide⟩

/-- C1 (amended): when no mapping strategy matches — the merchant
strategies, the merchant-category strategy and the registered-category
strategy all yield nothing — _map_category returns
CategoryMapping(Shopping, no subcategory), regardless of the amount
field (its sign, value or presence) and of whether the merchant name
contains "twint". -/
theorem C1_default_is_shopping (p : Processor) (row : Row) (ord : List String)
    (h1 : merchantHit p row ord = .ok none)
    (h2 : merchantCategoryHit p row = .ok none)
    (h3 : registeredCategoryHit p row = .ok none) :
    mapCategoryOrd p row ord = .ok ⟨Category.SHOPPING, none⟩ := by
  unfold mapCategoryOrd
  rw [h1, h2, h3]
  rfl

/-- C1 witness: the amended default theorem at a concrete twint row
with a negative fractional amount and empty tables. -/
theorem C1_default_is_shopping_witness :
    mapCategoryOrd plainProcessor
      [("Merchant", .str "TWINT Jane Doe"), ("Amount", .num (-123/10))]
      ["twint", "jane", "doe"] = .ok ⟨Category.SHOPPING, none⟩ :=
  C1_default_is_shopping _ _ _ rfl rfl rfl

/-- C2: strategy ordering — if the row's merchant value (a string s)
passes the guard and its lowercase form has an exact entry m in the
merchant table, _map_category returns m for every token order, even
when the merchant-category table holds a conflicting entry m-prime
under some label; the later strategies never affect the result. -/
theorem C2_merchant_exact_wins (p : Processor) (row : Row) (ord : List String)
    (s label : String) (m m' : CategoryMapping)
    (hrow : colVal p.merchant_column row = some (.str s))
    (hhit : dictGet p.config.merchant_mappings (pyLowerStr s) = some m)
    (hconf : dictGet p.config.merchant_category_mappings label = some m')
    (hne : m' ≠ m) :
    mapCategoryOrd p row ord = .ok m := by
  unfold mapCategoryOrd
  rw [merchantHit_exact p row ord s m hrow hhit]

/-- C2 witness: a merchant with an exact entry and a conflicting
merchant-category entry resolves via the merchant table. -/
theorem C2_merchant_exact_wins_witness :
    mapCategoryOrd
      { plainProcessor with config := { plainProcessor.config with
          merchant_mappings := [("coop", groceriesMapping)],
          merchant_category_mappings := [("groceries", socialDining)] } }
      [("Merchant", .str "Coop"), ("Merchant Category", .str "Groceries")]
      ["coop"] = .ok groceriesMapping :=
  C2_merchant_exact_wins _ _ _ "Coop" "groceries" _ _ rfl rfl rfl (by decide)

/-- C3 counterexample: a row reaching the default step with no amount
field does not raise MissingFieldError (or any other error) —
_map_category never reads the amount and returns Shopping/None. -/
theorem C3_counterexample :
    mapCategory plainProcessor [("Merchant", .str "Unknown Corp")] =
      .ok ⟨Category.SHOPPING, none⟩ ∧
    ∀ e : Err, mapCategory plainProcessor [("Merchant", .str "Unknown Corp")] ≠ .error e := by
  refine ⟨rfl, ?_⟩
  intro e hcontra
  rw [show mapCategory plainProcessor [("Merchant", .str "Unknown Corp")] =
      .ok ⟨Category.SHOPPING, none⟩ from rfl] at hcontra
  exact Except.noConfusion hcontra

/-- C3 (amended): resolution never raises on rows whose field values
are strings: absence of the optional merchant, merchant-category or
registered-category fields merely skips the corresponding strategy, and
a row reaching the default step — in particular one with no amount
field at all — returns a mapping instead of raising. -/
theorem C3_no_raise (p : Processor) (row : Row) (ord : List String)
    (hwt : rowWellTyped row = true) :
    ∃ m, mapCategoryOrd p row ord = .ok m := by
  unfold mapCategoryOrd
  rcases merchantHit_ok p row ord hwt with ⟨o1, ho1⟩
  rw [ho1]
  cases o1 with
  | some m => exact ⟨m, rfl⟩
  | none =>
    rcases merchantCategoryHit_ok p row hwt with ⟨o2, ho2⟩
    rw [ho2]
    cases o2 with
    | some m => exact ⟨m, rfl⟩
    | none =>
      rcases registeredCategoryHit_ok p row hwt with ⟨o3, ho3⟩
      rw [ho3]
      cases o3 with
      | some m => exact ⟨m, rfl⟩
      | none => exact ⟨⟨Category.SHOPPING, none⟩, rfl⟩

/-- C3 witness: the amended theorem at a concrete row that has no
amount field and misses every table. -/
theorem C3_no_raise_witness :
    rowWellTyped [("Merchant", .str "Unknown Corp")] = true ∧
    ∃ m, mapCategoryOrd plainProcessor [("Merchant", .str "Unknown Corp")]
      ["unknown", "corp"] = .ok m :=
  ⟨rfl, C3_no_raise _ _ _ rfl⟩

/-- C4: token fallback — with "kir" stored in the merchant table as
DINING/Social, no entry for the full lowercased merchant string
"bar kir royal" and none for the other tokens, a row whose merchant is
"Bar Kir Royal" resolves to DINING/Social for every iteration order of
the token set (the lowercased name is split on whitespace and each
token probed against the merchant table). -/
theorem C4_token_fallback (p : Processor) (row : Row) (ord : List String)
    (hrow : colVal p.merchant_column row = some (.str "Bar Kir Royal"))
    (hord : ord.Perm (merchantWords (pyLowerStr "Bar Kir Royal")))
    (hfull : dictGet p.config.merchant_mappings "bar kir royal" = none)
    (hkir : dictGet p.config.merchant_mappings "kir" = some socialDining)
    (hbar : dictGet p.config.merchant_mappings "bar" = none)
    (hroyal : dictGet p.config.merchant_mappings "royal" = none) :
    mapCategoryOrd p row ord = .ok socialDining := by
  have hwords : merchantWords (pyLowerStr "Bar Kir Royal") = ["bar", "kir", "royal"] := by
    decide
  rw [hwords] at hord
  have hperm := hord.filter (fun w => (dictGet p.config.merchant_mappings w).isSome)
  have hfilter : (["bar", "kir", "royal"].filter
      fun w => (dictGet p.config.merchant_mappings w).isSome) = ["kir"] := by
    simp [List.filter_cons, hbar, hkir, hroyal]
  rw [hfilter] at hperm
  have heq : (ord.filter fun w => (dictGet p.config.merchant_mappings w).isSome) = ["kir"] :=
    perm_eq_of_len_le_one hperm (by simp)
  have hhit : firstTokenHit p.config.merchant_mappings ord = some socialDining := by
    rw [firstTokenHit_eq, heq]
    simp [hkir]
  unfold mapCategoryOrd merchantHit
  rw [hrow]
  dsimp only [pyLower]
  rw [show pyLowerStr "Bar Kir Royal" = "bar kir royal" from rfl, hfull, hhit]

/-- C4 witness: the token-fallback theorem after actually seeding the
merchant table with the "kir" entry, at a reversed token order. -/
theorem C4_token_fallback_witness :
    set_category_mapper plainProcessor [("kir", SeedValue.mapping socialDining)] "Merchant" =
      .ok kirProcessor ∧
    mapCategoryOrd kirProcessor [("Merchant", .str "Bar Kir Royal")] ["royal", "kir", "bar"] =
      .ok socialDining :=
  ⟨rfl, C4_token_fallback _ _ _ rfl (by decide) rfl rfl rfl rfl⟩

/-- C5: case-insensitivity — with a merchant-table entry stored under
the normalized key "coop" mapping to X, a row with merchant "COOP" and
a row with merchant "coop" resolve to the identical mapping X, for any
token order and any further row fields (lookup keys are lowercased
before the exact-match probe). -/
theorem C5_case_insensitive (cfg : ProcessorConfig) (X : CategoryMapping)
    (ord : List String) (rest : Row)
    (hseed : dictGet cfg.merchant_mappings "coop" = some X) :
    mapCategoryOrd { plainProcessor with config := cfg }
      (("Merchant", .str "COOP") :: rest) ord = .ok X ∧
    mapCategoryOrd { plainProcessor with config := cfg }
      (("Merchant", .str "coop") :: rest) ord = .ok X := by
  constructor
  · unfold mapCategoryOrd
    rw [merchantHit_exact { plainProcessor with config := cfg }
      (("Merchant", .str "COOP") :: rest) ord "COOP" X rfl hseed]
  · unfold mapCategoryOrd
    rw [merchantHit_exact { plainProcessor with config := cfg }
      (("Merchant", .str "coop") :: rest) ord "coop" X rfl hseed]

/-- C5 witness: the case-insensitivity theorem at a concrete seeded
table. -/
theorem C5_case_insensitive_witness :
    mapCategoryOrd { plainProcessor with config := { plainProcessor.config with
        merchant_mappings := [("coop", groceriesMapping)] } }
      [("Merchant", .str "COOP")] [] = .ok groceriesMapping ∧
    mapCategoryOrd { plainProcessor with config := { plainProcessor.config with
        merchant_mappings := [("coop", groceriesMapping)] } }
      [("Merchant", .str "coop")] [] = .ok groceriesMapping :=
  C5_case_insensitive _ groceriesMapping [] [] rfl

/-- C6: seeding is last-write-wins per normalized key and never removes
keys — from any table with unique keys, seeding ikea to Household/Decor
and then ikea to Household/Furniture leaves exactly one entry under
"ikea", which resolves to Household/Furniture; and any successful
seeding preserves every previously present key. -/
theorem C6_seed_last_write_wins (tbl : MappingTable) (h : NodupKeys tbl) :
    ∃ t1 t2,
      seedTable tbl [("ikea", .mapping decorMapping)] = .ok t1 ∧
      seedTable t1 [("ikea", .mapping furnitureMapping)] = .ok t2 ∧
      countKey t2 "ikea" = 1 ∧
      dictGet t2 "ikea" = some furnitureMapping ∧
      (∀ k, k ∈ tableKeys tbl → k ∈ tableKeys t2) ∧
      (∀ es t', seedTable tbl es = .ok t' → ∀ k, k ∈ tableKeys tbl → k ∈ tableKeys t') := by
  refine ⟨dictSet tbl "ikea" decorMapping,
    dictSet (dictSet tbl "ikea" decorMapping) "ikea" furnitureMapping,
    rfl, rfl, ?_, ?_, ?_, ?_⟩
  · exact countKey_dictSet_self _ _ _ (nodupKeys_dictSet _ _ _ h)
  · exact dictGet_dictSet_self _ _ _
  · intro k hk
    exact mem_tableKeys_dictSet _ _ _ _ (mem_tableKeys_dictSet _ _ _ _ hk)
  · intro es t' hs k hk
    exact mem_tableKeys_seedTable _ _ _ hs _ hk

/-- C6 witness: the seeding theorem starting from the empty table. -/
theorem C6_seed_last_write_wins_witness :
    NodupKeys ([] : MappingTable) ∧
    (∃ t1 t2,
      seedTable [] [("ikea", .mapping decorMapping)] = .ok t1 ∧
      seedTable t1 [("ikea", .mapping furnitureMapping)] = .ok t2 ∧
      countKey t2 "ikea" = 1 ∧
      dictGet t2 "ikea" = some furnitureMapping ∧
      (∀ k, k ∈ tableKeys ([] : MappingTable) → k ∈ tableKeys t2) ∧
      (∀ es t', seedTable ([] : MappingTable) es = .ok t' →
        ∀ k, k ∈ tableKeys ([] : MappingTable) → k ∈ tableKeys t')) :=
  ⟨by simp [NodupKeys, tableKeys], C6_seed_last_write_wins [] (by simp [NodupKeys, tableKeys])⟩

/-- C7: constructing CategoryMapping(DINING, HobbiesSubcategory.SALSA)
fails validation at construction time; CategoryMapping(DINING,
DiningSubcategory.SOCIAL) succeeds and round-trips both fields
unchanged; and the same validation fires when a raw dict entry is
seeded into a mapping table. -/
theorem C7_subcategory_validation :
    CategoryMapping.mk? Category.DINING (some (.hobbies .SALSA)) =
      .error (.validationError "Invalid subcategory type") ∧
    (∃ m, CategoryMapping.mk? Category.DINING (some (.dining .SOCIAL)) = .ok m ∧
      m.category = Category.DINING ∧ m.subcategory = some (.dining .SOCIAL)) ∧
    seedTable [] [("x", .raw Category.DINING (some (.hobbies .SALSA)))] =
      .error (.validationError "Invalid subcategory type") :=
  ⟨rfl, ⟨⟨Category.DINING, some (.dining .SOCIAL)⟩, rfl, rfl, rfl⟩, rfl⟩

/-- C8 counterexample: with two distinct merchant tokens each having a
different table entry, the resolved mapping depends on the unspecified
iteration order of the token set — two orders, both permutations of the
row's token set, yield different mappings, so the winning mapping is
not determined by the row and table state alone. -/
theorem C8_counterexample :
    (["coop", "ikea"] : List String).Perm (rowMerchantWords twoTokenProcessor twoTokenRow) ∧
    (["ikea", "coop"] : List String).Perm (rowMerchantWords twoTokenProcessor twoTokenRow) ∧
    mapCategoryOrd twoTokenProcessor twoTokenRow ["coop", "ikea"] = .ok groceriesMapping ∧
    mapCategoryOrd twoTokenProcessor twoTokenRow ["ikea", "coop"] = .ok decorMapping ∧
    groceriesMapping ≠ decorMapping :=
  ⟨by decide, by decide, by decide, by decide, by decide⟩

/-- C8 (amended): resolution is deterministic relative to the token
iteration order — any two iteration orders that are permutations of a
common token list in which at most one token has a merchant-table entry
yield identical results (and the non-merchant strategies never depend
on the order); with two differently-mapped matching tokens the winner
is order-dependent, as the counterexample shows. -/
theorem C8_deterministic_single_hit (p : Processor) (row : Row)
    (ws o₁ o₂ : List String)
    (h1 : o₁.Perm ws) (h2 : o₂.Perm ws)
    (hws : (ws.filter fun w => (dictGet p.config.merchant_mappings w).isSome).length ≤ 1) :
    mapCategoryOrd p row o₁ = mapCategoryOrd p row o₂ := by
  have f1 := h1.filter (fun w => (dictGet p.config.merchant_mappings w).isSome)
  have f2 := h2.filter (fun w => (dictGet p.config.merchant_mappings w).isSome)
  have e1 := perm_eq_of_len_le_one f1 hws
  have e2 := perm_eq_of_len_le_one f2 hws
  have hft : firstTokenHit p.config.merchant_mappings o₁ =
      firstTokenHit p.config.merchant_mappings o₂ := by
    rw [firstTokenHit_eq, firstTokenHit_eq, e1, e2]
  exact mapCategoryOrd_congr p row o₁ o₂ (merchantHit_congr p row o₁ o₂ hft)

/-- C8 witness: two nontrivially different token orders over a
single-hit token set resolve identically. -/
theorem C8_deterministic_single_hit_witness :
    mapCategoryOrd kirProcessor [("Merchant", .str "Bar Kir Royal")] ["royal", "bar", "kir"] =
      mapCategoryOrd kirProcessor [("Merchant", .str "Bar Kir Royal")] ["bar", "kir", "royal"] :=
  C8_deterministic_single_hit _ _ ["bar", "kir", "royal"] _ _ (by decide) (by decide) (by decide)

/-- C9: constructing a ZKBProcessor or a MigrosProcessor raises
AttributeError before any transaction can be processed — both
constructors call self.set_default_merchant_mapping(), a name defined
neither in the subclass bodies nor in BaseTransactionProcessor, so
attribute resolution fails and neither processor can be instantiated. -/
theorem C9_constructors_raise :
    hasMethod [zkbProcessorMethods, baseTransactionProcessorMethods]
      "set_default_merchant_mapping" = false ∧
    hasMethod [migrosProcessorMethods, baseTransactionProcessorMethods]
      "set_default_merchant_mapping" = false ∧
    zkbInit = .error (.attributeError "set_default_merchant_mapping") ∧
    migrosInit = .error (.attributeError "set_default_merchant_mapping") :=
  ⟨rfl, rfl, rfl, rfl⟩

/-- C10: the taxonomy invariant is preserved by resolution — if every
entry of the three tables satisfies it (as every seeded entry does,
being validated at construction or seed time), then any mapping
_map_category returns satisfies it: the table strategies return stored
values and the default path constructs Shopping with no subcategory,
which is valid. Resolution is a pure function of the processor and the
row and returns without modifying any table. -/
theorem C10_resolution_preserves_validity (p : Processor) (row : Row) (ord : List String)
    (m : CategoryMapping) (hv : validConfig p.config = true)
    (hres : mapCategoryOrd p row ord = .ok m) :
    validMapping m = true := by
  have hv' := hv
  unfold validConfig at hv'
  rw [Bool.and_eq_true, Bool.and_eq_true] at hv'
  obtain ⟨⟨hv1, hv2⟩, hv3⟩ := hv'
  unfold mapCategoryOrd at hres
  cases h1 : merchantHit p row ord with
  | error e =>
    rw [h1] at hres
    dsimp only at hres
    exact Except.noConfusion hres
  | ok o1 =>
    rw [h1] at hres
    cases o1 with
    | some m1 =>
      dsimp only at hres
      have hm : m1 = m := by simpa using hres
      rcases merchantHit_some p row ord m1 h1 with ⟨k, hk⟩
      exact hm ▸ validTable_dictGet _ _ _ hv1 hk
    | none =>
      dsimp only at hres
      cases h2 : merchantCategoryHit p row with
      | error e =>
        rw [h2] at hres
        dsimp only at hres
        exact Except.noConfusion hres
      | ok o2 =>
        rw [h2] at hres
        cases o2 with
        | some m2 =>
          dsimp only at hres
          have hm : m2 = m := by simpa using hres
          rcases merchantCategoryHit_some p row m2 h2 with ⟨k, hk⟩
          exact hm ▸ validTable_dictGet _ _ _ hv2 hk
        | none =>
          dsimp only at hres
          cases h3 : registeredCategoryHit p row with
          | error e =>
            rw [h3] at hres
            dsimp only at hres
            exact Except.noConfusion hres
          | ok o3 =>
            rw [h3] at hres
            cases o3 with
            | some m3 =>
              dsimp only at hres
              have hm : m3 = m := by simpa using hres
              rcases registeredCategoryHit_some p row m3 h3 with ⟨k, hk⟩
              exact hm ▸ validTable_dictGet _ _ _ hv3 hk
            | none =>
              dsimp only at hres
              have hm : (⟨Category.SHOPPING, none⟩ : CategoryMapping) = m := by
                simpa [CategoryMapping.mk?] using hres
              rw [← hm]
              rfl

/-- C10 witness: the invariant theorem at a concrete valid table and a
token-resolved row. -/
theorem C10_resolution_preserves_validity_witness :
    validConfig kirProcessor.config = true ∧
    mapCategoryOrd kirProcessor [("Merchant", .str "Bar Kir Royal")]
      ["bar", "kir", "royal"] = .ok socialDining ∧
    validMapping socialDining = true :=
  ⟨rfl, rfl, C10_resolution_preserves_validity kirProcessor
    [("Merchant", .str "Bar Kir Royal")] ["bar", "kir", "royal"] socialDining rfl rfl⟩

end Cashewiss
